import Mathlib

/-!
Shallow embedding of the chatbot in `wit_test/witTest.js` (dialogue manager
`generateResponse`, generative fallback client `askGemini`, and the
chat-loop adapter), together with theorems settling the specification
claims about it.

Modelling conventions:
* A JavaScript string-or-null-or-undefined value is `Option String`;
  `none` stands for both `null` and `undefined`.
* JavaScript truthiness of such a value (`""` is falsy) is `truthy`,
  and `a || b` is `jsOr a b`.
* The Wit.ai entity mapping is a structure with one field per entity key
  the code reads; a key that is missing from the JSON is the empty list.
* `witData.entities` itself may be absent (`none`); in that case the very
  first indexing `entities["hastane:hastane"]` in the source throws a
  TypeError, which the embedding renders as `Except.error` carrying the
  session as it stands at the moment of the throw.
* The Gemini HTTP call is external; the dialogue manager's result is a
  `Reply` value that either is a fixed string or records the arguments of
  the delegated `askGemini` call.  `askGemini` itself is embedded as a
  pure function of the service outcome (transport failure or a parsed
  JSON response).
* JavaScript numbers (intent confidences) are embedded as rationals.
-/

deriving instance DecidableEq for Except

namespace Chatbot

/-- JS truthiness of an optional string: `null`/`undefined` and `""` are falsy. -/
def truthy : Option String → Bool
  | none => false
  | some s => s != ""

/-- JS `a || b` on optional strings: `b` when `a` is falsy. -/
def jsOr (a b : Option String) : Option String :=
  if truthy a then a else b

/-- JS `s.includes(pat)`: `pat` occurs as a contiguous substring of `s`. -/
def jsIncludes (s pat : String) : Bool :=
  decide (pat.toList <:+: s.toList)

/-- JS `s.toLowerCase()`, modelled characterwise (ASCII case mapping; the
keywords the code searches for are all ASCII). -/
def jsToLower (s : String) : String :=
  ⟨s.data.map Char.toLower⟩

/-- One element of a datetime entity's nested `values` list (`{value, ...}`). -/
structure DtVal where
  value : Option String := none
deriving DecidableEq

/-- One element of an entity's list: a `value` string and, for datetime
entities, an optional nested `values` list. -/
structure EntityItem where
  value : Option String := none
  values : Option (List DtVal) := none
deriving DecidableEq

/-- The entity mapping of a Wit.ai response, restricted to the eight keys the
code reads.  Field ↔ JSON key:
`hastane_ns` ↔ `"hastane:hastane"`, `hastane` ↔ `"hastane"`,
`bolum_ns` ↔ `"bolum:bolum"`, `bolum` ↔ `"bolum"`,
`witDatetimeDollar_ns` ↔ `"wit$datetime:datetime"`,
`witDatetimeDollar` ↔ `"wit$datetime"`,
`witDatetime_ns` ↔ `"wit/datetime:datetime"`,
`witDatetime` ↔ `"wit/datetime"`.  A key absent from the JSON is `[]`. -/
structure Entities where
  hastane_ns : List EntityItem := []
  hastane : List EntityItem := []
  bolum_ns : List EntityItem := []
  bolum : List EntityItem := []
  witDatetimeDollar_ns : List EntityItem := []
  witDatetimeDollar : List EntityItem := []
  witDatetime_ns : List EntityItem := []
  witDatetime : List EntityItem := []
deriving DecidableEq

/-- The entity mapping with every key absent. -/
def noEntities : Entities := {}

/-- JS `items?.[0]?.value`. -/
def firstVal : List EntityItem → Option String
  | [] => none
  | it :: _ => it.value

/-- JS `items?.[0]?.values?.[0]?.value`. -/
def firstValsVal : List EntityItem → Option String
  | [] => none
  | it :: _ =>
    match it.values with
    | none => none
    | some [] => none
    | some (v :: _) => v.value

/-- The alias chain for the `hastane` slot (witTest.js lines 103-105):
`entities["hastane:hastane"]?.[0]?.value || entities["hastane"]?.[0]?.value`. -/
def hastaneChain (e : Entities) : Option String :=
  jsOr (firstVal e.hastane_ns) (firstVal e.hastane)

/-- The alias chain for the `bolum` slot (witTest.js lines 107-109). -/
def bolumChain (e : Entities) : Option String :=
  jsOr (firstVal e.bolum_ns) (firstVal e.bolum)

/-- The alias chain for the `datetime` slot (witTest.js lines 111-117), in
source order. -/
def datetimeChain (e : Entities) : Option String :=
  jsOr (firstVal e.witDatetimeDollar_ns)
    (jsOr (firstVal e.witDatetimeDollar)
      (jsOr (firstVal e.witDatetime_ns)
        (jsOr (firstValsVal e.witDatetime_ns)
          (jsOr (firstVal e.witDatetime) (firstValsVal e.witDatetime)))))

/-- The process-wide session record: the three appointment slots. -/
structure Session where
  hastane : Option String
  bolum : Option String
  datetime : Option String
deriving DecidableEq

/-- The session at process start and after each reset: all slots `null`. -/
def emptySession : Session := ⟨none, none, none⟩

/-- One slot-merge assignment `session.x = session.x || chain...`.
When the current value is truthy, `||` short-circuits and the entity mapping
is never read; otherwise reading a missing mapping throws (`Except.error`). -/
def mergeSlot (cur : Option String) (ents : Option Entities)
    (chain : Entities → Option String) : Except Unit (Option String) :=
  if truthy cur then Except.ok cur
  else
    match ents with
    | none => Except.error ()
    | some e => Except.ok (jsOr cur (chain e))

/-- The three sequential slot-merge assignments (witTest.js lines 103-117).
On a throw the error carries the session as already mutated: assignments
completed before the throw have taken effect. -/
def mergeSession (s : Session) (ents : Option Entities) : Except Session Session :=
  match mergeSlot s.hastane ents hastaneChain with
  | .error _ => .error s
  | .ok h =>
    match mergeSlot s.bolum ents bolumChain with
    | .error _ => .error { s with hastane := h }
    | .ok b =>
      match mergeSlot s.datetime ents datetimeChain with
      | .error _ => .error { hastane := h, bolum := b, datetime := s.datetime }
      | .ok d => .ok { hastane := h, bolum := b, datetime := d }

/-- The merge result when the entity mapping is present (no throw possible). -/
def mergedSession (s : Session) (e : Entities) : Session :=
  { hastane := jsOr s.hastane (hastaneChain e)
    bolum := jsOr s.bolum (bolumChain e)
    datetime := jsOr s.datetime (datetimeChain e) }

/-- One classifier intent `{name, confidence}`. -/
structure Intent where
  name : String
  confidence : ℚ
deriving DecidableEq

/-- The Wit.ai response body: optional `intents` list (absent ≈ empty, only
element 0 is read) and optional `entities` mapping. -/
structure WitData where
  intents : List Intent := []
  entities : Option Entities := none
deriving DecidableEq

/-- JS `witData.intents?.[0]?.name`. -/
def topIntent (w : WitData) : Option String :=
  w.intents.head?.map Intent.name

/-- JS `witData.intents?.[0]?.confidence || 0`. -/
def topConfidence (w : WitData) : ℚ :=
  match w.intents.head? with
  | some i => i.confidence
  | none => 0

/-- The dialogue manager's reply: either a string built locally or a
delegated Gemini completion with its two arguments. -/
inductive Reply where
  | fixed (s : String)
  | geminiCall (userMessage : String) (context : String)
deriving DecidableEq

def cancelReply : String := "Randevu işlemi iptal edildi."

def askHastaneReply : String := "Hangi hastane için randevu almak istiyorsunuz?"

def askBolumReply : String := "Hangi bölüm için randevu almak istiyorsunuz?"

def askDatetimeReply : String := "Hangi tarih ve saatte randevu almak istiyorsunuz?"

def successReply : String := "Randevunuz başarıyla oluşturuldu!"

/-- The confirmation template literal (witTest.js line 143). -/
def confirmReply (h b d : String) : String :=
  "✅ Onay: " ++ h ++ " hastanesi, " ++ b ++ " bölümü için " ++ d ++
    " tarihine randevu talebiniz alındı. Onaylıyor musunuz? (evet/hayır)"

/-- Cancellation check (witTest.js line 120). -/
def isCancelText (text : String) : Bool :=
  jsIncludes text "iptal" || jsIncludes text "cancel"

/-- Flow-entry condition (witTest.js lines 134-136) with
`requiresRandevuKeyword = true`, so the second disjunct of the source is
dead and the condition is: trigger keyword ∧ top intent `randevu_al` ∧
confidence > 0.7, or any merged slot truthy. -/
def flowCondition (text : String) (intent : Option String) (conf : ℚ)
    (s1 : Session) : Bool :=
  (jsIncludes text "randevu" && intent == some "randevu_al" && decide (conf > mkRat 7 10))
    || truthy s1.hastane || truthy s1.bolum || truthy s1.datetime

/-- The slot-filling / confirmation sub-state machine
(witTest.js lines 138-150), in source order, first match wins. -/
def flowStep (text : String) (s1 : Session) : Session × Reply :=
  if truthy s1.hastane = false then (s1, .fixed askHastaneReply)
  else if truthy s1.bolum = false then (s1, .fixed askBolumReply)
  else if truthy s1.datetime = false then (s1, .fixed askDatetimeReply)
  else if jsIncludes text "evet" = false then
    (s1, .fixed (confirmReply (s1.hastane.getD "") (s1.bolum.getD "")
      (s1.datetime.getD "")))
  else (emptySession, .fixed successReply)

/-- The Gemini context prompt built in the fallback path
(witTest.js lines 154-160). -/
def geminiContext (userMessage : String) (intent : Option String) (conf : ℚ) :
    String :=
  let base := "Kullanıcının mesajı: \"" ++ userMessage ++ "\"."
  let mid :=
    match intent with
    | some i =>
      if i != "" && i != "randevu_al" && decide (conf > mkRat 1 2) then
        " Wit.ai bunu \"" ++ i ++ "\" niyeti olarak algıladı."
      else " Wit.ai belirli bir niyet belirleyemedi veya randevu akışına girilmedi."
    | none => " Wit.ai belirli bir niyet belirleyemedi veya randevu akışına girilmedi."
  base ++ mid ++ " Lütfen doğal ve sohbetvari bir şekilde yanıt verin."

/-- The dialogue manager (witTest.js lines 95-163).  Returns the updated
session and the reply; `Except.error s1` models the TypeError thrown when
`witData.entities` is absent and a falsy slot's merge line reads it, with
`s1` the session as mutated at the moment of the throw. -/
def generateResponse (s : Session) (w : WitData) (userMessage : String) :
    Except Session (Session × Reply) :=
  let text := jsToLower userMessage
  let intent := topIntent w
  let conf := topConfidence w
  match mergeSession s w.entities with
  | .error s1 => .error s1
  | .ok s1 =>
    if isCancelText text then .ok (emptySession, .fixed cancelReply)
    else if flowCondition text intent conf s1 then .ok (flowStep text s1)
    else .ok (s1, .geminiCall userMessage (geminiContext userMessage intent conf))

/-! ### The Gemini fallback client `askGemini` (witTest.js lines 48-87) -/

/-- A structured Gemini error object `{code, message}`. -/
structure GeminiError where
  code : Int := 0
  message : Option String := none
deriving DecidableEq

structure GPart where
  text : Option String := none
deriving DecidableEq

structure GContent where
  parts : List GPart := []
deriving DecidableEq

structure GCandidate where
  content : Option GContent := none
deriving DecidableEq

/-- A parsed Gemini JSON response: optional `error` object and `candidates`
list (absent ≈ empty, only element 0 is read). -/
structure GeminiResp where
  error : Option GeminiError := none
  candidates : List GCandidate := []
deriving DecidableEq

/-- What the awaited fetch/json of the Gemini call produced: a thrown
transport/parse error, or a parsed response body. -/
inductive GeminiOutcome where
  | transportFailure
  | response (data : GeminiResp)
deriving DecidableEq

def quotaReply : String :=
  "🤖 Üzgünüm, şu an çok fazla talep alıyorum. Lütfen biraz sonra tekrar deneyin (Kota Aşıldı)."

def badKeyReply : String :=
  "🤖 API anahtarımda bir sorun var. Lütfen geliştiriciye bildirin (Geçersiz API Anahtarı)."

/-- The non-fixed "other service error" reply embedding the error message. -/
def otherErrorReply (msg : String) : String :=
  "🤖 Gemini ile iletişimde bir sorun oluştu: " ++ msg

def cannotUnderstandReply : String :=
  "🤖 Anlayamadım, lütfen başka şekilde ifade edin."

def connectionReply : String :=
  "🤖 Üzgünüm, şu anda Gemini ile bağlantı kuramıyorum. Lütfen internet bağlantınızı kontrol edin veya daha sonra tekrar deneyin."

/-- JS `data.candidates?.[0]?.content?.parts?.[0]?.text`. -/
def candidateText (data : GeminiResp) : Option String :=
  match data.candidates with
  | [] => none
  | c :: _ =>
    match c.content with
    | none => none
    | some ct =>
      match ct.parts with
      | [] => none
      | p :: _ => p.text

/-- The final `return data.candidates... || "🤖 Anlayamadım..."` line. -/
def candidateOrFallback (data : GeminiResp) : String :=
  match candidateText data with
  | some t => if t != "" then t else cannotUnderstandReply
  | none => cannotUnderstandReply

/-- `askGemini` (witTest.js lines 48-87) as a function of the service
outcome.  A `code === 400` error whose `message` is absent throws a
TypeError at `.includes`, caught by the surrounding `catch`, hence the
connection reply in that branch. -/
def askGemini (outcome : GeminiOutcome) : String :=
  match outcome with
  | .transportFailure => connectionReply
  | .response data =>
    match data.error with
    | none => candidateOrFallback data
    | some e =>
      if e.code == 429 then quotaReply
      else if e.code == 400 then
        match e.message with
        | none => connectionReply
        | some m =>
          if jsIncludes m "API key not valid" then badKeyReply
          else if m != "" then otherErrorReply m
          else candidateOrFallback data
      else
        match e.message with
        | some m => if m != "" then otherErrorReply m else candidateOrFallback data
        | none => candidateOrFallback data

/-! ### The chat-loop adapter (witTest.js lines 174-195) -/

/-- What the awaited `askWit` call produced for a turn. -/
inductive TurnInput where
  | witFailure
  | witOk (w : WitData)

/-- The printed outcome of a turn: the bot's reply, or the generic
catch-branch apology. -/
inductive TurnReply where
  | bot (r : Reply)
  | genericError
deriving DecidableEq

/-- One iteration of `chatLoop` on a non-`exit` line: `askWit` then
`generateResponse` inside `try`/`catch`; a throw leaves the session as the
throw left it and prints the generic apology. -/
def chatTurn (s : Session) (inp : TurnInput) (msg : String) : Session × TurnReply :=
  match inp with
  | .witFailure => (s, .genericError)
  | .witOk w =>
    match generateResponse s w msg with
    | .error s1 => (s1, .genericError)
    | .ok (s1, r) => (s1, .bot r)

/-! ### Helper lemmas -/

theorem jsOr_of_truthy {a : Option String} (b : Option String) (h : truthy a = true) :
    jsOr a b = a := by
  simp [jsOr, h]

theorem jsOr_of_falsy {a : Option String} (b : Option String) (h : truthy a = false) :
    jsOr a b = b := by
  simp [jsOr, h]

theorem truthy_jsOr (a b : Option String) :
    truthy (jsOr a b) = (truthy a || truthy b) := by
  cases h : truthy a <;> simp [jsOr, h]

theorem mergeSlot_some (cur : Option String) (e : Entities)
    (chain : Entities → Option String) :
    mergeSlot cur (some e) chain = .ok (jsOr cur (chain e)) := by
  cases h : truthy cur <;> simp [mergeSlot, h, jsOr]

theorem mergeSession_some (s : Session) (e : Entities) :
    mergeSession s (some e) = .ok (mergedSession s e) := by
  cases s
  simp [mergeSession, mergeSlot_some, mergedSession]

/-- A merge that throws has completed only identity reassignments: the session
carried by the error equals the input session. -/
theorem mergeSession_error {s s' : Session} {ents : Option Entities}
    (h : mergeSession s ents = .error s') : s' = s := by
  cases ents with
  | some e => rw [mergeSession_some] at h; exact absurd h (by simp)
  | none =>
    cases s with
    | mk sh sb sd =>
      cases h1 : truthy sh <;> cases h2 : truthy sb <;> cases h3 : truthy sd <;>
        simp_all [mergeSession, mergeSlot]

/-- All-truthy sessions are fixed points of the entity merge. -/
theorem mergedSession_eq_self {s1 : Session} (e2 : Entities)
    (h1 : truthy s1.hastane = true) (h2 : truthy s1.bolum = true)
    (h3 : truthy s1.datetime = true) : mergedSession s1 e2 = s1 := by
  cases s1
  simp only [mergedSession]
  simp_all [jsOr_of_truthy]

/-- Every branch of the slot-filling sub-state machine yields a fixed string,
never a Gemini delegation. -/
theorem flowStep_fixed (text : String) (s1 : Session) :
    ∃ str, (flowStep text s1).2 = .fixed str := by
  unfold flowStep
  repeat' split
  all_goals exact ⟨_, rfl⟩

/-! ### Claims -/

/-- C1, counterexample: the claim says `generateResponse` raises no error for
every raw message and ClassifierResult, "including when the ClassifierResult's
optional `entities` mapping is absent".  On the fresh session and a response
with no `entities` mapping, the merge line `entities["hastane:hastane"]`
throws a TypeError, so the function does raise an error. -/
theorem C1_counterexample :
    generateResponse emptySession { intents := [], entities := none } "merhaba"
      = .error emptySession := by
  decide

/-- C1, amended: whenever the ClassifierResult's `entities` mapping is
present, `generateResponse` raises no error: it totally produces an updated
session and a reply, for every session, intent list and raw message. -/
theorem C1_thm (s : Session) (ints : List Intent) (e : Entities) (msg : String) :
    (generateResponse s { intents := ints, entities := some e } msg).isOk = true := by
  unfold generateResponse
  rw [mergeSession_some]
  dsimp only
  split
  · rfl
  · split <;> rfl

/-- C2: whenever the lowercased raw message contains a cancellation keyword
("iptal" or "cancel"), `generateResponse` clears all three slots and returns
the fixed cancellation reply, for every session (including mid-flow partial
sessions), intent list and entity mapping; no later step contributes. -/
theorem C2_thm (s : Session) (w : WitData) (e : Entities) (msg : String)
    (hw : w.entities = some e)
    (h : jsIncludes (jsToLower msg) "iptal" = true
      ∨ jsIncludes (jsToLower msg) "cancel" = true) :
    generateResponse s w msg = .ok (emptySession, .fixed cancelReply) := by
  have hc : isCancelText (jsToLower msg) = true := by
    cases h with
    | inl h => simp [isCancelText, h]
    | inr h => simp [isCancelText, h]
  unfold generateResponse
  rw [hw, mergeSession_some]
  dsimp only
  rw [if_pos hc]

/-- C2, witness: the mid-flow session with facility and department filled,
a message "Iptal et" whose lowercase form contains "iptal". -/
theorem C2_witness :
    jsIncludes (jsToLower "Iptal et") "iptal" = true
    ∧ generateResponse ⟨some "A", some "B", none⟩
        { intents := [], entities := some noEntities } "Iptal et"
      = .ok (emptySession, .fixed cancelReply) :=
  ⟨by decide,
    C2_thm ⟨some "A", some "B", none⟩ _ noEntities "Iptal et" rfl
      (Or.inl (by decide))⟩

/-- C3: with all slots absent, no slot extracted, no cancellation keyword,
trigger keyword present and top intent `randevu_al`, the flow is entered
exactly when the confidence exceeds 0.7: in general the reply is the
facility question iff `0.7 < c`, and in particular confidence 0.71 yields
the facility question while confidence exactly 0.7 routes to the
generative fallback. -/
theorem C3_thm (msg : String) (e : Entities)
    (h1 : jsIncludes (jsToLower msg) "randevu" = true)
    (h2 : jsIncludes (jsToLower msg) "iptal" = false)
    (h3 : jsIncludes (jsToLower msg) "cancel" = false)
    (hh : hastaneChain e = none) (hb : bolumChain e = none)
    (hd : datetimeChain e = none) :
    (∀ c : ℚ,
      generateResponse emptySession
          { intents := [⟨"randevu_al", c⟩], entities := some e } msg
        = if mkRat 7 10 < c then .ok (emptySession, .fixed askHastaneReply)
          else .ok (emptySession,
            .geminiCall msg (geminiContext msg (some "randevu_al") c)))
    ∧ generateResponse emptySession
          { intents := [⟨"randevu_al", mkRat 71 100⟩], entities := some e } msg
        = .ok (emptySession, .fixed askHastaneReply)
    ∧ generateResponse emptySession
          { intents := [⟨"randevu_al", mkRat 7 10⟩], entities := some e } msg
        = .ok (emptySession,
            .geminiCall msg (geminiContext msg (some "randevu_al") (mkRat 7 10))) := by
  have hmerge : mergedSession emptySession e = emptySession := by
    simp [mergedSession, emptySession, jsOr, truthy, hh, hb, hd]
  have hcan : isCancelText (jsToLower msg) = false := by
    simp [isCancelText, h2, h3]
  have key : ∀ c : ℚ,
      generateResponse emptySession
          { intents := [⟨"randevu_al", c⟩], entities := some e } msg
        = if mkRat 7 10 < c then .ok (emptySession, .fixed askHastaneReply)
          else .ok (emptySession,
            .geminiCall msg (geminiContext msg (some "randevu_al") c)) := by
    intro c
    unfold generateResponse
    rw [mergeSession_some, hmerge]
    dsimp only [topIntent, topConfidence, List.head?, Option.map]
    rw [if_neg (by simp [hcan])]
    have hfc : flowCondition (jsToLower msg) (some "randevu_al") c emptySession
        = decide (mkRat 7 10 < c) := by
      simp [flowCondition, h1, emptySession, truthy, GT.gt]
    rw [hfc]
    by_cases hcmp : mkRat 7 10 < c
    · rw [if_pos (by simp [hcmp]), if_pos hcmp]
      simp [flowStep, emptySession, truthy]
    · rw [if_neg (by simp [hcmp]), if_neg hcmp]
  exact ⟨key, by rw [key]; exact if_pos (by decide), by rw [key]; exact if_neg (by decide)⟩

/-- C3, witness: the message "Randevu" with confidence 0.71. -/
theorem C3_witness :
    jsIncludes (jsToLower "Randevu") "randevu" = true
    ∧ generateResponse emptySession
        { intents := [⟨"randevu_al", mkRat 71 100⟩], entities := some noEntities } "Randevu"
      = .ok (emptySession, .fixed askHastaneReply) :=
  ⟨by decide,
    (C3_thm "Randevu" noEntities (by decide) (by decide) (by decide)
      (by decide) (by decide) (by decide)).2.1⟩

/-- C4: per-turn slot merge: a truthy slot is never overwritten
(first-write-wins); a falsy slot becomes the value of its alias chain, in
which the first alias yielding a non-empty value wins, and stays non-populated
when no alias yields one; and a turn's resulting session is either exactly the
merged session or the cleared session produced by the cancellation or
confirmed-completion reset. -/
theorem C4_thm (s : Session) (e : Entities) (ints : List Intent) (msg : String) :
    (truthy s.hastane = true → (mergedSession s e).hastane = s.hastane)
    ∧ (truthy s.hastane = false →
        (mergedSession s e).hastane = hastaneChain e
        ∧ (truthy (hastaneChain e) = false →
            truthy (mergedSession s e).hastane = false))
    ∧ (truthy s.bolum = true → (mergedSession s e).bolum = s.bolum)
    ∧ (truthy s.bolum = false →
        (mergedSession s e).bolum = bolumChain e
        ∧ (truthy (bolumChain e) = false →
            truthy (mergedSession s e).bolum = false))
    ∧ (truthy s.datetime = true → (mergedSession s e).datetime = s.datetime)
    ∧ (truthy s.datetime = false →
        (mergedSession s e).datetime = datetimeChain e
        ∧ (truthy (datetimeChain e) = false →
            truthy (mergedSession s e).datetime = false))
    ∧ (∀ (s2 : Session) (r : Reply),
        generateResponse s { intents := ints, entities := some e } msg = .ok (s2, r) →
        s2 = mergedSession s e
        ∨ (s2 = emptySession ∧ (r = .fixed cancelReply ∨ r = .fixed successReply))) := by
  refine ⟨?_, ?_, ?_, ?_, ?_, ?_, ?_⟩
  · intro h; exact jsOr_of_truthy _ h
  · intro h
    refine ⟨jsOr_of_falsy _ h, ?_⟩
    intro hc
    show truthy (jsOr s.hastane (hastaneChain e)) = false
    rw [jsOr_of_falsy _ h, hc]
  · intro h; exact jsOr_of_truthy _ h
  · intro h
    refine ⟨jsOr_of_falsy _ h, ?_⟩
    intro hc
    show truthy (jsOr s.bolum (bolumChain e)) = false
    rw [jsOr_of_falsy _ h, hc]
  · intro h; exact jsOr_of_truthy _ h
  · intro h
    refine ⟨jsOr_of_falsy _ h, ?_⟩
    intro hc
    show truthy (jsOr s.datetime (datetimeChain e)) = false
    rw [jsOr_of_falsy _ h, hc]
  · intro s2 r h
    unfold generateResponse at h
    rw [mergeSession_some] at h
    dsimp only at h
    split at h
    · simp only [Except.ok.injEq, Prod.mk.injEq] at h
      exact Or.inr ⟨h.1.symm, Or.inl h.2.symm⟩
    · split at h
      · simp only [Except.ok.injEq] at h
        unfold flowStep at h
        split at h
        · simp only [Prod.mk.injEq] at h; exact Or.inl h.1.symm
        · split at h
          · simp only [Prod.mk.injEq] at h; exact Or.inl h.1.symm
          · split at h
            · simp only [Prod.mk.injEq] at h; exact Or.inl h.1.symm
            · split at h
              · simp only [Prod.mk.injEq] at h; exact Or.inl h.1.symm
              · simp only [Prod.mk.injEq] at h
                exact Or.inr ⟨h.1.symm, Or.inr h.2.symm⟩
      · simp only [Except.ok.injEq, Prod.mk.injEq] at h
        exact Or.inl h.1.symm

/-- C4, witness: a filled facility slot survives a conflicting entity, and a
turn's session is the merged one on an ordinary ask-department turn. -/
theorem C4_witness :
    (mergedSession (Session.mk (some "A") none none)
        { hastane := [{ value := some "X" }] }).hastane = some "A"
    ∧ (Session.mk (some "A") none none
        = mergedSession (Session.mk (some "A") none none) noEntities
      ∨ (Session.mk (some "A") none none = emptySession
          ∧ (Reply.fixed askBolumReply = .fixed cancelReply
            ∨ Reply.fixed askBolumReply = .fixed successReply))) :=
  ⟨(C4_thm (Session.mk (some "A") none none)
      { hastane := [{ value := some "X" }] } [] "m").1 (by decide),
    (C4_thm (Session.mk (some "A") none none) noEntities [] "devam").2.2.2.2.2.2
      (Session.mk (some "A") none none) (.fixed askBolumReply) (by decide)⟩

/-- C5: on a flow turn with no cancellation keyword, the reply is decided by
the first missing slot in the fixed order facility, department, datetime, and
the session is exactly the merged session (unchanged by this step). -/
theorem C5_thm (s : Session) (w : WitData) (e : Entities) (msg : String)
    (hw : w.entities = some e)
    (h2 : jsIncludes (jsToLower msg) "iptal" = false)
    (h3 : jsIncludes (jsToLower msg) "cancel" = false)
    (hflow : flowCondition (jsToLower msg) (topIntent w) (topConfidence w)
        (mergedSession s e) = true) :
    (truthy (mergedSession s e).hastane = false →
      generateResponse s w msg = .ok (mergedSession s e, .fixed askHastaneReply))
    ∧ (truthy (mergedSession s e).hastane = true →
       truthy (mergedSession s e).bolum = false →
      generateResponse s w msg = .ok (mergedSession s e, .fixed askBolumReply))
    ∧ (truthy (mergedSession s e).hastane = true →
       truthy (mergedSession s e).bolum = true →
       truthy (mergedSession s e).datetime = false →
      generateResponse s w msg = .ok (mergedSession s e, .fixed askDatetimeReply)) := by
  have hgen : generateResponse s w msg
      = .ok (flowStep (jsToLower msg) (mergedSession s e)) := by
    unfold generateResponse
    rw [hw, mergeSession_some]
    dsimp only
    rw [if_neg (by simp [isCancelText, h2, h3]), if_pos hflow]
  refine ⟨?_, ?_, ?_⟩
  · intro hh
    rw [hgen]
    unfold flowStep
    rw [if_pos hh]
  · intro hh hb
    rw [hgen]
    unfold flowStep
    rw [if_neg (by simp [hh]), if_pos hb]
  · intro hh hb hd
    rw [hgen]
    unfold flowStep
    rw [if_neg (by simp [hh]), if_neg (by simp [hb]), if_pos hd]

/-- C5, witness: a fresh flow-entry turn asks for the facility. -/
theorem C5_witness :
    flowCondition (jsToLower "randevu istiyorum")
        (topIntent { intents := [⟨"randevu_al", mkRat 9 10⟩], entities := some noEntities })
        (topConfidence { intents := [⟨"randevu_al", mkRat 9 10⟩], entities := some noEntities })
        (mergedSession emptySession noEntities) = true
    ∧ generateResponse emptySession
        { intents := [⟨"randevu_al", mkRat 9 10⟩], entities := some noEntities }
        "randevu istiyorum"
      = .ok (mergedSession emptySession noEntities, .fixed askHastaneReply) :=
  ⟨by decide,
    (C5_thm emptySession _ noEntities "randevu istiyorum" rfl
      (by decide) (by decide) (by decide)).1 (by decide)⟩

/-- C6: once the merged session has all three slots filled, any turn whose
lowercased message contains neither a cancellation keyword nor "evet" returns
the confirmation message embedding the three slot values and leaves the
session at the merged value; repeating such turns (any classifier output with
the entities mapping present) returns the identical message again. -/
theorem C6_thm (s : Session) (w : WitData) (e : Entities) (msg : String)
    (hw : w.entities = some e)
    (hh : truthy (mergedSession s e).hastane = true)
    (hb : truthy (mergedSession s e).bolum = true)
    (hd : truthy (mergedSession s e).datetime = true)
    (h2 : jsIncludes (jsToLower msg) "iptal" = false)
    (h3 : jsIncludes (jsToLower msg) "cancel" = false)
    (h4 : jsIncludes (jsToLower msg) "evet" = false) :
    generateResponse s w msg
      = .ok (mergedSession s e,
          .fixed (confirmReply ((mergedSession s e).hastane.getD "")
            ((mergedSession s e).bolum.getD "") ((mergedSession s e).datetime.getD "")))
    ∧ ∀ (w2 : WitData) (e2 : Entities) (msg2 : String),
        w2.entities = some e2 →
        jsIncludes (jsToLower msg2) "iptal" = false →
        jsIncludes (jsToLower msg2) "cancel" = false →
        jsIncludes (jsToLower msg2) "evet" = false →
        generateResponse (mergedSession s e) w2 msg2
          = .ok (mergedSession s e,
              .fixed (confirmReply ((mergedSession s e).hastane.getD "")
                ((mergedSession s e).bolum.getD "")
                ((mergedSession s e).datetime.getD ""))) := by
  constructor
  · unfold generateResponse
    rw [hw, mergeSession_some]
    dsimp only
    rw [if_neg (by simp [isCancelText, h2, h3]),
      if_pos (by simp [flowCondition, hh])]
    unfold flowStep
    rw [if_neg (by simp [hh]), if_neg (by simp [hb]), if_neg (by simp [hd]),
      if_pos h4]
  · intro w2 e2 msg2 hw2 k2 k3 k4
    have heq : mergedSession (mergedSession s e) e2 = mergedSession s e :=
      mergedSession_eq_self e2 hh hb hd
    unfold generateResponse
    rw [hw2, mergeSession_some, heq]
    dsimp only
    rw [if_neg (by simp [isCancelText, k2, k3]),
      if_pos (by simp [flowCondition, hh])]
    unfold flowStep
    rw [if_neg (by simp [hh]), if_neg (by simp [hb]), if_neg (by simp [hd]),
      if_pos k4]

/-- C6, witness: all slots filled, message "tamam" re-prompts with the
confirmation message and leaves the session unchanged. -/
theorem C6_witness :
    truthy (mergedSession (Session.mk (some "A") (some "B") (some "C")) noEntities).hastane
      = true
    ∧ generateResponse (Session.mk (some "A") (some "B") (some "C"))
        { intents := [], entities := some noEntities } "tamam"
      = .ok (mergedSession (Session.mk (some "A") (some "B") (some "C")) noEntities,
          .fixed (confirmReply
            ((mergedSession (Session.mk (some "A") (some "B") (some "C")) noEntities).hastane.getD "")
            ((mergedSession (Session.mk (some "A") (some "B") (some "C")) noEntities).bolum.getD "")
            ((mergedSession (Session.mk (some "A") (some "B") (some "C")) noEntities).datetime.getD ""))) :=
  ⟨by decide,
    (C6_thm (Session.mk (some "A") (some "B") (some "C")) _ noEntities "tamam" rfl
      (by decide) (by decide) (by decide) (by decide) (by decide) (by decide)).1⟩

/-- C7: with all merged slots filled and no cancellation keyword, a message
containing "evet" clears all three slots and returns the fixed success reply;
afterwards a turn from the empty session that re-meets the flow-entry
conditions (trigger keyword, top intent `randevu_al`, confidence above 0.7,
no truthy slot extracted) asks for the facility again. -/
theorem C7_thm (s : Session) (w : WitData) (e : Entities) (msg : String)
    (hw : w.entities = some e)
    (hh : truthy (mergedSession s e).hastane = true)
    (hb : truthy (mergedSession s e).bolum = true)
    (hd : truthy (mergedSession s e).datetime = true)
    (h2 : jsIncludes (jsToLower msg) "iptal" = false)
    (h3 : jsIncludes (jsToLower msg) "cancel" = false)
    (h4 : jsIncludes (jsToLower msg) "evet" = true) :
    generateResponse s w msg = .ok (emptySession, .fixed successReply)
    ∧ ∀ (c : ℚ) (e2 : Entities) (msg2 : String),
        jsIncludes (jsToLower msg2) "iptal" = false →
        jsIncludes (jsToLower msg2) "cancel" = false →
        jsIncludes (jsToLower msg2) "randevu" = true →
        mkRat 7 10 < c →
        truthy (hastaneChain e2) = false →
        truthy (bolumChain e2) = false →
        truthy (datetimeChain e2) = false →
        generateResponse emptySession
            { intents := [⟨"randevu_al", c⟩], entities := some e2 } msg2
          = .ok (mergedSession emptySession e2, .fixed askHastaneReply) := by
  constructor
  · unfold generateResponse
    rw [hw, mergeSession_some]
    dsimp only
    rw [if_neg (by simp [isCancelText, h2, h3]),
      if_pos (by simp [flowCondition, hh])]
    unfold flowStep
    rw [if_neg (by simp [hh]), if_neg (by simp [hb]), if_neg (by simp [hd]),
      if_neg (by simp [h4])]
  · intro c e2 msg2 k2 k3 k1 hc ch1 ch2 ch3
    have hs1 : truthy (mergedSession emptySession e2).hastane = false := by
      show truthy (jsOr none (hastaneChain e2)) = false
      rw [jsOr_of_falsy (a := none) (hastaneChain e2) rfl]
      exact ch1
    unfold generateResponse
    rw [mergeSession_some]
    dsimp only [topIntent, topConfidence, List.head?, Option.map]
    rw [if_neg (by simp [isCancelText, k2, k3])]
    rw [if_pos (by simp [flowCondition, k1, GT.gt, hc])]
    unfold flowStep
    rw [if_pos hs1]

/-- C7, witness: all slots filled, message "evet" finalizes and clears. -/
theorem C7_witness :
    jsIncludes (jsToLower "evet") "evet" = true
    ∧ generateResponse (Session.mk (some "A") (some "B") (some "C"))
        { intents := [], entities := some noEntities } "evet"
      = .ok (emptySession, .fixed successReply) :=
  ⟨by decide,
    (C7_thm (Session.mk (some "A") (some "B") (some "C")) _ noEntities "evet" rfl
      (by decide) (by decide) (by decide) (by decide) (by decide) (by decide)).1⟩

/-- C8, counterexample: the claim says every "other structured service error"
is mapped to a fixed apology string, pairwise distinct from the other failure
replies.  A structured error with code 500 and no `message` field falls
through every error branch and yields the "could not understand" string,
which is not one of the apology strings. -/
theorem C8_counterexample :
    askGemini (.response { error := some { code := 500, message := none }, candidates := [] })
      = cannotUnderstandReply
    ∧ cannotUnderstandReply ≠ quotaReply
    ∧ cannotUnderstandReply ≠ badKeyReply
    ∧ cannotUnderstandReply ≠ connectionReply := by
  exact ⟨by decide, by decide, by decide, by decide⟩

/-- C8, amended: `askGemini` never propagates an error and always returns a
string.  Rate-limit errors (code 429) map to the fixed quota apology; code 400
with a message containing "API key not valid" maps to the fixed invalid-key
apology; code 400 with no message throws internally at `.includes` and is
caught, yielding the transport apology; any other structured error with a
non-empty message maps to an apology *prefix followed by that message* (not a
fixed string); transport failure maps to the fixed connection apology; in all
remaining cases (no error object, or a structured error whose message is
absent or empty and matches no earlier branch) the result is the first
candidate's non-empty text, and otherwise the fixed "could not understand"
string.  The three fixed apologies are pairwise distinct. -/
theorem C8_thm :
    askGemini .transportFailure = connectionReply
    ∧ (∀ (data : GeminiResp) (err : GeminiError), data.error = some err →
        err.code = 429 → askGemini (.response data) = quotaReply)
    ∧ (∀ (data : GeminiResp) (err : GeminiError) (m : String), data.error = some err →
        err.code = 400 → err.message = some m →
        jsIncludes m "API key not valid" = true →
        askGemini (.response data) = badKeyReply)
    ∧ (∀ (data : GeminiResp) (err : GeminiError), data.error = some err →
        err.code = 400 → err.message = none →
        askGemini (.response data) = connectionReply)
    ∧ (∀ (data : GeminiResp) (err : GeminiError) (m : String), data.error = some err →
        err.code ≠ 429 → err.code ≠ 400 → err.message = some m → m ≠ "" →
        askGemini (.response data) = otherErrorReply m)
    ∧ (∀ (data : GeminiResp) (err : GeminiError) (m : String), data.error = some err →
        err.code = 400 → err.message = some m →
        jsIncludes m "API key not valid" = false → m ≠ "" →
        askGemini (.response data) = otherErrorReply m)
    ∧ (∀ data : GeminiResp, data.error = none →
        askGemini (.response data) = candidateOrFallback data)
    ∧ (∀ (data : GeminiResp) (err : GeminiError), data.error = some err →
        err.code ≠ 429 → err.code ≠ 400 →
        (err.message = none ∨ err.message = some "") →
        askGemini (.response data) = candidateOrFallback data)
    ∧ (∀ (data : GeminiResp) (err : GeminiError), data.error = some err →
        err.code = 400 → err.message = some "" →
        askGemini (.response data) = candidateOrFallback data)
    ∧ (∀ (data : GeminiResp) (t : String), candidateText data = some t → t ≠ "" →
        candidateOrFallback data = t)
    ∧ (∀ data : GeminiResp, truthy (candidateText data) = false →
        candidateOrFallback data = cannotUnderstandReply)
    ∧ quotaReply ≠ badKeyReply ∧ quotaReply ≠ connectionReply
    ∧ badKeyReply ≠ connectionReply := by
  refine ⟨rfl, ?_, ?_, ?_, ?_, ?_, ?_, ?_, ?_, ?_, ?_, by decide, by decide, by decide⟩
  · intro data err h hc
    simp [askGemini, h, hc]
  · intro data err m h hc hm hk
    simp [askGemini, h, hc, hm, hk]
  · intro data err h hc hm
    simp [askGemini, h, hc, hm]
  · intro data err m h hc4 hc0 hm hne
    simp [askGemini, h, hm, hc4, hc0, hne]
  · intro data err m h hc hm hk hne
    simp [askGemini, h, hc, hm, hk, hne]
  · intro data h
    simp [askGemini, h]
  · intro data err h hc4 hc0 hm
    cases hm with
    | inl hm => simp [askGemini, h, hc4, hc0, hm]
    | inr hm => simp [askGemini, h, hc4, hc0, hm]
  · intro data err h hc hm
    have hk : jsIncludes "" "API key not valid" = false := by decide
    simp [askGemini, h, hc, hm, hk]
  · intro data t h hne
    simp [candidateOrFallback, h, hne]
  · intro data h
    unfold candidateOrFallback
    cases hct : candidateText data with
    | none => rfl
    | some t =>
      rw [hct] at h
      simp only [truthy] at h
      simp [h]

/-- C8, witness: a 429 error yields the fixed quota apology. -/
theorem C8_witness :
    askGemini (.response { error := some { code := 429, message := none }, candidates := [] })
      = quotaReply :=
  C8_thm.2.1 { error := some { code := 429, message := none }, candidates := [] }
    { code := 429, message := none } rfl rfl

/-- C9: no error leaves the session partially mutated: a failed classifier
call leaves the session unchanged; a throw inside `generateResponse` carries
exactly the unchanged input session; and the cancellation and
confirmed-completion paths perform their session mutation while returning a
locally fixed reply, involving no Gemini delegation. -/
theorem C9_thm :
    (∀ (s : Session) (msg : String), chatTurn s .witFailure msg = (s, .genericError))
    ∧ (∀ (s : Session) (w : WitData) (msg : String) (s' : Session),
        generateResponse s w msg = .error s' → s' = s)
    ∧ (∀ (s : Session) (ints : List Intent) (e : Entities) (msg : String),
        isCancelText (jsToLower msg) = true →
        generateResponse s { intents := ints, entities := some e } msg
          = .ok (emptySession, .fixed cancelReply))
    ∧ (∀ (s : Session) (ints : List Intent) (e : Entities) (msg : String),
        truthy (mergedSession s e).hastane = true →
        truthy (mergedSession s e).bolum = true →
        truthy (mergedSession s e).datetime = true →
        isCancelText (jsToLower msg) = false →
        jsIncludes (jsToLower msg) "evet" = true →
        generateResponse s { intents := ints, entities := some e } msg
          = .ok (emptySession, .fixed successReply)) := by
  refine ⟨fun s msg => rfl, ?_, ?_, ?_⟩
  · intro s w msg s' h
    unfold generateResponse at h
    cases hm : mergeSession s w.entities with
    | error s1 =>
      rw [hm] at h
      dsimp only at h
      injection h with h
      subst h
      exact mergeSession_error hm
    | ok s1 =>
      rw [hm] at h
      dsimp only at h
      split at h
      · exact absurd h (by simp)
      · split at h <;> exact absurd h (by simp)
  · intro s ints e msg hc
    unfold generateResponse
    rw [mergeSession_some]
    dsimp only
    rw [if_pos hc]
  · intro s ints e msg hh hb hd hc h4
    unfold generateResponse
    rw [mergeSession_some]
    dsimp only
    rw [if_neg (by simp [hc]), if_pos (by simp [flowCondition, hh])]
    unfold flowStep
    rw [if_neg (by simp [hh]), if_neg (by simp [hb]), if_neg (by simp [hd]),
      if_neg (by simp [h4])]

/-- C9, witness: the cancellation path mutates the session and returns the
fixed cancellation reply with no Gemini delegation. -/
theorem C9_witness :
    isCancelText (jsToLower "cancel lütfen") = true
    ∧ generateResponse (Session.mk (some "A") none none)
        { intents := [], entities := some noEntities } "cancel lütfen"
      = .ok (emptySession, .fixed cancelReply) :=
  ⟨by decide,
    C9_thm.2.2.1 (Session.mk (some "A") none none) [] noEntities "cancel lütfen"
      (by decide)⟩

/-- C10, counterexample: the claim says a turn reaching the generative
fallback leaves the session completely unchanged.  An entity carrying the
empty string as its value is falsy, so it does not trigger the flow, yet the
merge writes it into the slot: from the fresh session, a turn with entity
value `""` reaches the fallback with the facility slot changed from `null`
to `""`. -/
theorem C10_counterexample :
    generateResponse emptySession
        { intents := [], entities := some { hastane := [{ value := some "" }] } } "merhaba"
      = .ok (Session.mk (some "") none none,
          .geminiCall "merhaba" (geminiContext "merhaba" none 0))
    ∧ Session.mk (some "") none none ≠ emptySession := by
  exact ⟨by decide, by decide⟩

/-- C10, amended: whenever a turn (with the entities mapping present) reaches
the generative fallback, all three slots of both the input and the resulting
session are falsy (absent or the empty string), and the resulting session is
exactly the merged session — the merge can only have written falsy values on
such a turn, since any truthy slot makes the flow-entry condition true. -/
theorem C10_thm (s : Session) (ints : List Intent) (e : Entities)
    (msg m c2 : String) (s2 : Session)
    (h : generateResponse s { intents := ints, entities := some e } msg
      = .ok (s2, .geminiCall m c2)) :
    s2 = mergedSession s e
    ∧ truthy s2.hastane = false ∧ truthy s2.bolum = false ∧ truthy s2.datetime = false
    ∧ truthy s.hastane = false ∧ truthy s.bolum = false ∧ truthy s.datetime = false := by
  unfold generateResponse at h
  rw [mergeSession_some] at h
  dsimp only at h
  split at h
  · exact absurd h (by simp)
  · split at h
    · obtain ⟨str, hstr⟩ := flowStep_fixed (jsToLower msg) (mergedSession s e)
      simp only [Except.ok.injEq] at h
      rw [h] at hstr
      exact absurd hstr (by simp)
    · rename_i hflow
      simp only [Except.ok.injEq, Prod.mk.injEq] at h
      obtain ⟨hs2, -⟩ := h
      rw [Bool.not_eq_true] at hflow
      simp only [flowCondition, Bool.or_eq_false_iff] at hflow
      obtain ⟨⟨⟨-, hfh⟩, hfb⟩, hfd⟩ := hflow
      have hsh : truthy s.hastane = false ∧ truthy (mergedSession s e).hastane = false := by
        have := truthy_jsOr s.hastane (hastaneChain e)
        rw [show truthy (jsOr s.hastane (hastaneChain e))
            = truthy (mergedSession s e).hastane from rfl] at this
        rw [hfh] at this
        exact ⟨(Bool.or_eq_false_iff.mp this.symm).1, hfh⟩
      have hsb : truthy s.bolum = false ∧ truthy (mergedSession s e).bolum = false := by
        have := truthy_jsOr s.bolum (bolumChain e)
        rw [show truthy (jsOr s.bolum (bolumChain e))
            = truthy (mergedSession s e).bolum from rfl] at this
        rw [hfb] at this
        exact ⟨(Bool.or_eq_false_iff.mp this.symm).1, hfb⟩
      have hsd : truthy s.datetime = false ∧ truthy (mergedSession s e).datetime = false := by
        have := truthy_jsOr s.datetime (datetimeChain e)
        rw [show truthy (jsOr s.datetime (datetimeChain e))
            = truthy (mergedSession s e).datetime from rfl] at this
        rw [hfd] at this
        exact ⟨(Bool.or_eq_false_iff.mp this.symm).1, hfd⟩
      subst hs2
      exact ⟨rfl, hsh.2, hsb.2, hsd.2, hsh.1, hsb.1, hsd.1⟩

/-- C10, witness: a fallback turn from the fresh session with no entities. -/
theorem C10_witness :
    emptySession = mergedSession emptySession noEntities
    ∧ truthy emptySession.hastane = false ∧ truthy emptySession.bolum = false
    ∧ truthy emptySession.datetime = false
    ∧ truthy emptySession.hastane = false ∧ truthy emptySession.bolum = false
    ∧ truthy emptySession.datetime = false :=
  C10_thm emptySession [] noEntities "merhaba" "merhaba"
    (geminiContext "merhaba" none 0) emptySession (by decide)

end Chatbot
